import Mathlib

/-!
Verification of the guarded command-execution tool of `deep-code-agent`.

The development shallowly embeds `src/deep_code_agent/tools/terminal.py`
(the `terminal` function: timeout validation, empty-command validation,
denylist screening, subprocess execution and result construction) and the
tools-list selection of `create_code_agent` in
`src/deep_code_agent/code_agent.py`.

The subprocess call itself is the only effectful part of the code; it is
modelled by an explicit `ExecOutcome` parameter that records what the call
to `subprocess.run` did: normal completion with captured streams and exit
code, or one of the five exception classes caught by the function.  The
rest of the function is pure string manipulation, translated directly.
-/

namespace DeepCodeAgent

/-! Embedding of `src/deep_code_agent/tools/terminal.py`. -/

/-- MAX_TIMEOUT constant of terminal.py (line 6). -/
def MAX_TIMEOUT : Int := 300

/-- DEFAULT_TIMEOUT constant of terminal.py (line 7). -/
def DEFAULT_TIMEOUT : Int := 30

/-- ASCII whitespace recognized by Python `str.strip()`:
space, tab, newline, carriage return, vertical tab, form feed. -/
def isPySpace (c : Char) : Bool :=
  c == ' ' || c == '\t' || c == '\n' || c == '\r' || c == '\x0b' || c == '\x0c'

/-- Embedding of Python `str.strip()`: drop leading and trailing whitespace. -/
def pyStrip (s : String) : String :=
  String.mk (((s.data.dropWhile isPySpace).reverse.dropWhile isPySpace).reverse)

/-- Embedding of Python `str.lower()` (ASCII case folding). -/
def pyLower (s : String) : String :=
  String.mk (s.data.map Char.toLower)

/-- Embedding of the Python substring test `needle in hay` on character lists. -/
def containsSub (needle : List Char) : List Char → Bool
  | [] => needle.isEmpty
  | a :: t => needle.isPrefixOf (a :: t) || containsSub needle t

/-- Embedding of the Python substring test `needle in hay` on strings. -/
def strContains (hay needle : String) : Bool :=
  containsSub needle.data hay.data

/-- The fixed denylist `dangerous_commands` of terminal.py (line 32). -/
def dangerous_commands : List String := ["rm -rf /", "format", "del /q"]

/-- The `for dangerous in dangerous_commands` loop of terminal.py (lines 33-35):
the first denylist entry contained in the lowered command, if any. -/
def findDangerous (command : String) : Option String :=
  dangerous_commands.find? (fun dangerous => strContains (pyLower command) dangerous)

/-- What the call to `subprocess.run` did: normal completion with captured
stdout, stderr and exit code, or one of the five caught exception classes
(terminal.py lines 38-45 and 63-72). -/
inductive ExecOutcome where
  | completed (stdout stderr : String) (returncode : Int)
  | timeoutExpired
  | fileNotFoundError
  | permissionError
  | osError (msg : String)
  | otherException (msg : String)

/-- The fault outcomes: every `ExecOutcome` other than normal completion. -/
def isFault : ExecOutcome → Bool
  | ExecOutcome.completed _ _ _ => false
  | _ => true

/-- The two timeout validations of terminal.py (lines 22-25), in source order. -/
def timeoutError (timeout : Int) : Option String :=
  if timeout ≤ 0 then
    some ( "Error: Timeout must be positive, got " ++ toString timeout)
  else if timeout > MAX_TIMEOUT then
    some ( "Error: Timeout " ++ toString timeout ++ " exceeds maximum allowed " ++
      toString MAX_TIMEOUT ++ " seconds")
  else
    none

/-- The two command validations of terminal.py (lines 28-35), in source order:
the emptiness check `not command or not command.strip()`, then the denylist
screen. -/
def commandError (command : String) : Option String :=
  if command.isEmpty || (pyStrip command).isEmpty then
    some "Error: Command cannot be empty"
  else
    match findDangerous command with
    | some dangerous =>
        some ( "Error: Command contains potentially dangerous operation: " ++ dangerous)
    | none => none

/-- All four validations of terminal.py in source order: the first failing
check produces the returned error text. -/
def validationError (command : String) (timeout : Int) : Option String :=
  match timeoutError timeout with
  | some e => some e
  | none => commandError command

/-- Control reaches the `subprocess.run` call (terminal.py line 38) exactly
when no validation fails. -/
def spawnsSubprocess (command : String) (timeout : Int) : Bool :=
  (validationError command timeout).isNone

/-- The `status_info` string of terminal.py (lines 56-58). -/
def status_info (returncode : Int) : String :=
  "Command executed with exit code: " ++ toString returncode ++
    (if returncode != 0 then " (non-zero exit code indicates potential error)" else "")

/-- The `output_parts` list of terminal.py (lines 48-59): stdout if truthy,
then marked stderr if truthy, then always the status line. -/
def output_parts (stdout stderr : String) (returncode : Int) : List String :=
  ((if stdout.isEmpty then [] else [stdout]) ++
    (if stderr.isEmpty then [] else [ "STDERR:\n" ++ stderr])) ++
    [status_info returncode]

/-- Embedding of Python `sep.join(parts)`. -/
def joinWith (sep : String) : List String → String
  | [] => ""
  | [a] => a
  | a :: b :: t => a ++ sep ++ joinWith sep (b :: t)

/-- The final return of the success path of terminal.py (line 61):
join the parts with newlines, or the fixed sentinel if the list is empty. -/
def buildResult (stdout stderr : String) (returncode : Int) : String :=
  if (output_parts stdout stderr returncode).isEmpty then
    "Command executed successfully with no output."
  else
    joinWith "\n" (output_parts stdout stderr returncode)

/-- The `terminal` function of terminal.py (lines 11-72), with the effect of
`subprocess.run` supplied as an explicit `ExecOutcome`. -/
def terminal (command : String) (timeout : Int) (outcome : ExecOutcome) : String :=
  match validationError command timeout with
  | some err => err
  | none =>
    match outcome with
    | ExecOutcome.completed stdout stderr returncode =>
        buildResult stdout stderr returncode
    | ExecOutcome.timeoutExpired =>
        "Error: Command timed out after " ++ toString timeout ++ " seconds."
    | ExecOutcome.fileNotFoundError =>
        "Error: Command shell not found. Please ensure shell is available."
    | ExecOutcome.permissionError =>
        "Error: Permission denied executing command \x27" ++ command ++ "\x27"
    | ExecOutcome.osError msg =>
        "Error: OS error executing command \x27" ++ command ++ "\x27: " ++ msg
    | ExecOutcome.otherException msg =>
        "Error executing command \x27" ++ command ++ "\x27: " ++ msg

/-- `terminal` invoked without a caller-supplied timeout: the Python default
argument `timeout = DEFAULT_TIMEOUT` (terminal.py line 11). -/
def terminalDefault (command : String) (outcome : ExecOutcome) : String :=
  terminal command DEFAULT_TIMEOUT outcome

/-- Boolean test that `p` is a leading literal of `s`. -/
def beginsWith (s p : String) : Bool :=
  p.data.isPrefixOf s.data

/-! Embedding of the tools-list selection of `create_code_agent`
(src/deep_code_agent/code_agent.py lines 76-85). -/

/-- The tools that can appear in the list handed to the orchestration
runtime by `create_code_agent`. -/
inductive AgentTool where
  | terminalTool
  deriving DecidableEq

/-- The default value of the `backend_type` argument of `create_code_agent`
(code_agent.py line 30). -/
def default_backend_type : String := "state"

/-- The tools list `create_code_agent` passes to `create_deep_agent`
(code_agent.py lines 76-85): `[terminal]` in the "filesystem" branch,
`[]` otherwise. -/
def create_code_agent_tools (backend_type2 : String) : List AgentTool :=
  if backend_type2 = "filesystem" then [AgentTool.terminalTool] else []

/-- Result construction as worded by the spec (section 4.1): the newline-join
of the non-empty segments, in order stdout, `STDERR:`-marked stderr, and the
status line with the non-zero qualifier appended exactly when the exit code
is non-zero. -/
def resultFromSpec (stdout stderr : String) (code : Int) : String :=
  joinWith "\n"
    ((if stdout = "" then [] else [stdout]) ++
      (if stderr = "" then [] else [ "STDERR:\n" ++ stderr]) ++
      [ "Command executed with exit code: " ++ toString code ++
        (if code = 0 then "" else " (non-zero exit code indicates potential error)")])

/-! Helper lemmas. -/

/-- Characterization of the substring test: `containsSub n h` holds exactly
when `h` splits as `pre ++ n ++ suf`. -/
theorem containsSub_iff (n : List Char) : ∀ h : List Char,
    containsSub n h = true ↔ ∃ pre suf : List Char, h = pre ++ (n ++ suf) := by
  intro h
  induction h with
  | nil =>
    simp only [containsSub, List.isEmpty_iff]
    constructor
    · rintro rfl
      exact ⟨[], [], rfl⟩
    · rintro ⟨pre, suf, hps⟩
      rcases List.append_eq_nil.mp hps.symm with ⟨_, h2⟩
      exact (List.append_eq_nil.mp h2).1
  | cons a t ih =>
    simp only [containsSub, Bool.or_eq_true, ih]
    constructor
    · rintro (hp | ⟨pre, suf, rfl⟩)
      · rcases List.isPrefixOf_iff_prefix.mp hp with ⟨suf, hs⟩
        exact ⟨[], suf, hs.symm⟩
      · exact ⟨a :: pre, suf, rfl⟩
    · rintro ⟨pre, suf, hps⟩
      cases pre with
      | nil =>
        left
        exact List.isPrefixOf_iff_prefix.mpr ⟨suf, by simpa using hps.symm⟩
      | cons b pre =>
        right
        injection hps with h1 h2
        exact ⟨pre, suf, h2⟩

/-- Lowercasing fixes every whitespace character. -/
theorem toLower_of_isPySpace {c : Char} (h : isPySpace c = true) :
    Char.toLower c = c := by
  simp only [isPySpace, Bool.or_eq_true, beq_iff_eq] at h
  rcases h with ((((h | h) | h) | h) | h) | h <;> subst h <;> decide

/-- The stripped command is empty exactly when every character of the
command is whitespace. -/
theorem pyStrip_empty_iff (s : String) :
    (pyStrip s).isEmpty = true ↔ ∀ c ∈ s.data, isPySpace c = true := by
  rw [String.isEmpty_iff (pyStrip s)]
  constructor
  · intro h
    have hl : ((s.data.dropWhile isPySpace).reverse.dropWhile isPySpace).reverse = [] := by
      have h2 := congrArg String.data h
      exact h2
    rw [List.reverse_eq_nil_iff, List.dropWhile_eq_nil_iff] at hl
    intro c hc
    rw [← List.takeWhile_append_dropWhile isPySpace s.data] at hc
    rcases List.mem_append.mp hc with hc | hc
    · exact List.mem_takeWhile_imp hc
    · exact hl c (List.mem_reverse.mpr hc)
  · intro h
    have h1 : s.data.dropWhile isPySpace = [] := List.dropWhile_eq_nil_iff.mpr h
    unfold pyStrip
    rw [h1]
    rfl

/-- Appending on the right preserves a leading literal. -/
theorem beginsWith_append (a b p : String) (h : beginsWith a p = true) :
    beginsWith (a ++ b) p = true := by
  unfold beginsWith at h ⊢
  rw [List.isPrefixOf_iff_prefix] at h ⊢
  rw [String.data_append]
  exact h.trans (List.prefix_append a.data b.data)

/-- A join whose last part is `x` ends in `x`. -/
theorem joinWith_concat (sep x : String) : ∀ front : List String,
    ∃ pre : String, joinWith sep (front ++ [x]) = pre ++ x
  | [] => ⟨"", by simp [joinWith]⟩
  | [a] => ⟨a ++ sep, rfl⟩
  | a :: b :: t => by
    obtain ⟨pre, hp⟩ := joinWith_concat sep x (b :: t)
    refine ⟨a ++ sep ++ pre, ?_⟩
    show a ++ sep ++ joinWith sep ((b :: t) ++ [x]) = a ++ sep ++ pre ++ x
    rw [hp]
    simp [String.append_assoc]

/-- The parts list always carries the status line, hence is never empty. -/
theorem output_parts_ne_nil (stdout stderr : String) (rc : Int) :
    output_parts stdout stderr rc ≠ [] := by
  unfold output_parts
  intro h
  exact List.cons_ne_nil _ _ (List.append_eq_nil.mp h).2

/-- With a valid timeout, validation reduces to the command checks. -/
theorem validationError_of_valid (command : String) (timeout : Int)
    (h1 : 0 < timeout) (h2 : timeout ≤ MAX_TIMEOUT) :
    validationError command timeout = commandError command := by
  unfold MAX_TIMEOUT at h2
  unfold validationError timeoutError MAX_TIMEOUT
  rw [if_neg (by omega), if_neg (by omega)]

theorem exists_nonspace_of_contains (c : String) (x : Char) (d : String)
    (hx : isPySpace x = false) (hxd : x ∈ d.data)
    (hc : strContains (pyLower c) d = true) :
    ∃ ch ∈ c.data, isPySpace ch = false := by
  unfold strContains at hc
  rw [containsSub_iff] at hc
  obtain ⟨pre, suf, hps⟩ := hc
  have hxm : x ∈ (pyLower c).data := by
    rw [hps]
    simp [hxd]
  have hxm2 : x ∈ c.data.map Char.toLower := hxm
  obtain ⟨ch, hch, htl⟩ := List.mem_map.mp hxm2
  refine ⟨ch, hch, ?_⟩
  by_contra hns
  have hsp : isPySpace ch = true := by
    cases hb : isPySpace ch
    · exact absurd hb hns
    · rfl
  have heq : ch = x := by rw [← htl, toLower_of_isPySpace hsp]
  rw [heq, hx] at hsp
  exact absurd hsp (by decide)

theorem command_not_emptyish_of_dangerous (command d : String)
    (hd : d ∈ dangerous_commands) (hp : strContains (pyLower command) d = true) :
    (command.isEmpty || (pyStrip command).isEmpty) = false := by
  have hch : ∃ ch ∈ command.data, isPySpace ch = false := by
    have hd3 : d = "rm -rf /" ∨ d = "format" ∨ d = "del /q" := by
      simpa [dangerous_commands] using hd
    rcases hd3 with rfl | rfl | rfl
    · exact exists_nonspace_of_contains command 'r' _ (by decide) (by decide) hp
    · exact exists_nonspace_of_contains command 'f' _ (by decide) (by decide) hp
    · exact exists_nonspace_of_contains command 'd' _ (by decide) (by decide) hp
  obtain ⟨ch, hchm, hchs⟩ := hch
  rw [Bool.or_eq_false_iff]
  constructor
  · cases hb : command.isEmpty
    · rfl
    · exfalso
      have hemp : command = "" := (String.isEmpty_iff command).mp hb
      rw [hemp] at hchm
      exact absurd hchm (List.not_mem_nil ch)
  · cases hb : (pyStrip command).isEmpty
    · rfl
    · exfalso
      have hall := (pyStrip_empty_iff command).mp hb
      rw [hall ch hchm] at hchs
      exact absurd hchs (by decide)

theorem timeoutError_beginsWith (t : Int) (e : String) (h : timeoutError t = some e) :
    beginsWith e "Error" = true := by
  unfold timeoutError at h
  split_ifs at h with h1 h2
  · injection h with h2
    subst h2
    exact beginsWith_append _ _ _ (by decide)
  · injection h with h3
    subst h3
    exact beginsWith_append _ _ _ (beginsWith_append _ _ _
      (beginsWith_append _ _ _ (beginsWith_append _ _ _ (by decide))))

theorem commandError_beginsWith (c : String) (e : String) (h : commandError c = some e) :
    beginsWith e "Error" = true := by
  unfold commandError at h
  split_ifs at h with h1
  · injection h with h2
    subst h2
    decide
  · cases hfd : findDangerous c with
    | some d =>
      rw [hfd] at h
      injection h with h2
      subst h2
      exact beginsWith_append _ _ _ (by decide)
    | none =>
      rw [hfd] at h
      exact Option.noConfusion h

theorem validationError_beginsWith (c : String) (t : Int) (e : String)
    (h : validationError c t = some e) : beginsWith e "Error" = true := by
  unfold validationError at h
  cases hte : timeoutError t with
  | some e1 =>
    rw [hte] at h
    injection h with h2
    subst h2
    exact timeoutError_beginsWith t e1 hte
  | none =>
    rw [hte] at h
    exact commandError_beginsWith c e h

/-! Claim theorems. -/

/-- Claim C1: for every command and timeout the terminal operation returns a
text value (it is a total function into String), and on a validated
invocation each caught execution fault - timeout expiry, missing shell,
permission denial, OS error, unexpected exception - produces the
corresponding descriptive error text as the normal return value. -/
theorem terminal_total_and_fault_texts (command : String) (timeout : Int)
    (h : spawnsSubprocess command timeout = true) :
    (∀ c : String, ∀ t : Int, ∀ o : ExecOutcome, ∃ s : String, terminal c t o = s) ∧
    terminal command timeout ExecOutcome.timeoutExpired =
      "Error: Command timed out after " ++ toString timeout ++ " seconds." ∧
    terminal command timeout ExecOutcome.fileNotFoundError =
      "Error: Command shell not found. Please ensure shell is available." ∧
    terminal command timeout ExecOutcome.permissionError =
      "Error: Permission denied executing command \x27" ++ command ++ "\x27" ∧
    (∀ msg : String, terminal command timeout (ExecOutcome.osError msg) =
      "Error: OS error executing command \x27" ++ command ++ "\x27: " ++ msg) ∧
    (∀ msg : String, terminal command timeout (ExecOutcome.otherException msg) =
      "Error executing command \x27" ++ command ++ "\x27: " ++ msg) := by
  have hv : validationError command timeout = none := Option.isNone_iff_eq_none.mp h
  refine ⟨fun c t o => ⟨terminal c t o, rfl⟩, ?_, ?_, ?_, ?_, ?_⟩ <;>
    simp [terminal, hv]

theorem terminal_total_and_fault_texts_witness :
    spawnsSubprocess "ls" 30 = true ∧
    terminal "ls" 30 ExecOutcome.timeoutExpired =
      "Error: Command timed out after " ++ toString (30 : Int) ++ " seconds." :=
  ⟨by decide, (terminal_total_and_fault_texts "ls" 30 (by decide)).2.1⟩

/-- Claim C2: for every subprocess completion on a validated invocation, the
result equals the spec-worded newline-join of the non-empty segments -
stdout, STDERR-marked stderr, status line with the non-zero qualifier
appended exactly when the exit code is non-zero. -/
theorem terminal_completed_matches_spec (command : String) (timeout : Int)
    (stdout stderr : String) (returncode : Int)
    (h : spawnsSubprocess command timeout = true) :
    terminal command timeout (ExecOutcome.completed stdout stderr returncode) =
      resultFromSpec stdout stderr returncode := by
  have hv : validationError command timeout = none := Option.isNone_iff_eq_none.mp h
  have hne := output_parts_ne_nil stdout stderr returncode
  have hbe : ¬((output_parts stdout stderr returncode).isEmpty = true) := by
    simpa [List.isEmpty_iff] using hne
  have h1 : (if stdout.isEmpty then ([] : List String) else [stdout]) =
      (if stdout = "" then [] else [stdout]) := by
    by_cases hs : stdout = ""
    · subst hs; rfl
    · simp [hs, String.isEmpty_iff]
  have h2 : (if stderr.isEmpty then ([] : List String) else [ "STDERR:\n" ++ stderr]) =
      (if stderr = "" then [] else [ "STDERR:\n" ++ stderr]) := by
    by_cases hs : stderr = ""
    · subst hs; rfl
    · simp [hs, String.isEmpty_iff]
  have h3 : status_info returncode =
      "Command executed with exit code: " ++ toString returncode ++
        (if returncode = 0 then "" else " (non-zero exit code indicates potential error)") := by
    unfold status_info
    by_cases hc : returncode = 0
    · subst hc; rfl
    · simp [hc, bne_iff_ne]
  simp only [terminal, hv]
  unfold buildResult
  rw [if_neg hbe]
  unfold output_parts resultFromSpec
  rw [h1, h2, h3]

theorem terminal_completed_matches_spec_witness :
    spawnsSubprocess "echo hello" 30 = true ∧
    terminal "echo hello" 30 (ExecOutcome.completed "hello\n" "" 0) =
      "hello\n\nCommand executed with exit code: 0" := by
  constructor
  · decide
  · rw [terminal_completed_matches_spec "echo hello" 30 "hello\n" "" 0 (by decide)]
    decide

/-- Claim C3: with a valid timeout, a command that case-insensitively
contains a denylist substring is rejected: no subprocess is spawned, and the
result is the error text naming an offending substring (which the result
textually contains). -/
theorem terminal_denylist_blocks (command : String) (timeout : Int)
    (h1 : 0 < timeout) (h2 : timeout ≤ MAX_TIMEOUT)
    (h3 : ∃ d ∈ dangerous_commands, strContains (pyLower command) d = true) :
    spawnsSubprocess command timeout = false ∧
    ∃ d ∈ dangerous_commands,
      strContains (pyLower command) d = true ∧
      (∀ o : ExecOutcome, terminal command timeout o =
        "Error: Command contains potentially dangerous operation: " ++ d) ∧
      strContains
        ( "Error: Command contains potentially dangerous operation: " ++ d) d = true := by
  obtain ⟨d0, hd0⟩ : ∃ d0, findDangerous command = some d0 := by
    rw [← Option.isSome_iff_exists]
    unfold findDangerous
    rw [List.find?_isSome]
    exact h3
  have hd0mem : d0 ∈ dangerous_commands := List.mem_of_find?_eq_some hd0
  have hd0p : strContains (pyLower command) d0 = true := List.find?_some hd0
  have hne := command_not_emptyish_of_dangerous command d0 hd0mem hd0p
  have hce : commandError command =
      some ( "Error: Command contains potentially dangerous operation: " ++ d0) := by
    simp [commandError, hne, hd0]
  have hval : validationError command timeout = commandError command :=
    validationError_of_valid command timeout h1 h2
  refine ⟨?_, d0, hd0mem, hd0p, ?_, ?_⟩
  · unfold spawnsSubprocess
    rw [hval, hce]
    rfl
  · intro o
    simp [terminal, hval, hce]
  · unfold strContains
    rw [containsSub_iff]
    refine ⟨("Error: Command contains potentially dangerous operation: ").data, [], ?_⟩
    simp [String.data_append]

theorem terminal_denylist_blocks_witness :
    spawnsSubprocess "sudo rm -rf / --no-preserve-root" 30 = false ∧
    strContains
      (terminal "sudo rm -rf / --no-preserve-root" 30 (ExecOutcome.completed "" "" 0))
      "rm -rf /" = true := by
  have h := terminal_denylist_blocks "sudo rm -rf / --no-preserve-root" 30
    (by decide) (by decide) ⟨"rm -rf /", by decide, by decide⟩
  exact ⟨h.1, by decide⟩

/-- Claim C4: a non-positive timeout yields the positive-timeout error text
and an excessive timeout the maximum-timeout error text, with no subprocess
spawned in either case; timeouts in (0, MAX_TIMEOUT] pass the timeout
validation; and the default timeout is DEFAULT_TIMEOUT = 30. -/
theorem terminal_timeout_validation (command : String) (timeout : Int) :
    (timeout ≤ 0 →
      (∀ o : ExecOutcome, terminal command timeout o =
        "Error: Timeout must be positive, got " ++ toString timeout) ∧
      spawnsSubprocess command timeout = false) ∧
    (timeout > MAX_TIMEOUT →
      (∀ o : ExecOutcome, terminal command timeout o =
        "Error: Timeout " ++ toString timeout ++ " exceeds maximum allowed " ++
          toString MAX_TIMEOUT ++ " seconds") ∧
      spawnsSubprocess command timeout = false) ∧
    (0 < timeout → timeout ≤ MAX_TIMEOUT → timeoutError timeout = none) ∧
    DEFAULT_TIMEOUT = 30 ∧
    (∀ o : ExecOutcome, terminalDefault command o = terminal command 30 o) := by
  refine ⟨?_, ?_, ?_, rfl, fun o => rfl⟩
  · intro hle
    have hv : validationError command timeout =
        some ( "Error: Timeout must be positive, got " ++ toString timeout) := by
      unfold validationError timeoutError
      rw [if_pos hle]
    constructor
    · intro o
      simp [terminal, hv]
    · unfold spawnsSubprocess
      rw [hv]
      rfl
  · intro hgt
    have hpos : ¬(timeout ≤ 0) := by
      have h300 := hgt
      unfold MAX_TIMEOUT at h300
      omega
    have hv : validationError command timeout =
        some ( "Error: Timeout " ++ toString timeout ++ " exceeds maximum allowed " ++
          toString MAX_TIMEOUT ++ " seconds") := by
      unfold validationError timeoutError
      rw [if_neg hpos, if_pos hgt]
    constructor
    · intro o
      simp [terminal, hv]
    · unfold spawnsSubprocess
      rw [hv]
      rfl
  · intro hpos hle
    unfold timeoutError
    rw [if_neg (not_le.mpr hpos), if_neg (not_lt.mpr hle)]

theorem terminal_timeout_validation_witness :
    ((∀ o : ExecOutcome, terminal "ls" (-5) o =
      "Error: Timeout must be positive, got " ++ toString (-5 : Int)) ∧
      spawnsSubprocess "ls" (-5) = false) ∧
    ((∀ o : ExecOutcome, terminal "ls" 301 o =
      "Error: Timeout " ++ toString (301 : Int) ++ " exceeds maximum allowed " ++
        toString MAX_TIMEOUT ++ " seconds") ∧
      spawnsSubprocess "ls" 301 = false) :=
  ⟨(terminal_timeout_validation "ls" (-5)).1 (by decide),
    (terminal_timeout_validation "ls" 301).2.1 (by decide)⟩

/-- Claim C5: the four validation checks run in the fixed source order -
timeout positivity, timeout maximum, command emptiness, denylist screening -
and the first failing check alone determines the returned error text. -/
theorem terminal_check_order (command : String) (timeout : Int) (o : ExecOutcome) :
    (timeout ≤ 0 → terminal command timeout o =
      "Error: Timeout must be positive, got " ++ toString timeout) ∧
    (0 < timeout → MAX_TIMEOUT < timeout → terminal command timeout o =
      "Error: Timeout " ++ toString timeout ++ " exceeds maximum allowed " ++
        toString MAX_TIMEOUT ++ " seconds") ∧
    (0 < timeout → timeout ≤ MAX_TIMEOUT →
      (command.isEmpty || (pyStrip command).isEmpty) = true →
      terminal command timeout o = "Error: Command cannot be empty") ∧
    (0 < timeout → timeout ≤ MAX_TIMEOUT →
      (command.isEmpty || (pyStrip command).isEmpty) = false →
      ∀ d : String, findDangerous command = some d →
      terminal command timeout o =
        "Error: Command contains potentially dangerous operation: " ++ d) := by
  refine ⟨?_, ?_, ?_, ?_⟩
  · intro hle
    have hv : validationError command timeout =
        some ( "Error: Timeout must be positive, got " ++ toString timeout) := by
      unfold validationError timeoutError
      rw [if_pos hle]
    simp [terminal, hv]
  · intro hpos hgt
    have hv : validationError command timeout =
        some ( "Error: Timeout " ++ toString timeout ++ " exceeds maximum allowed " ++
          toString MAX_TIMEOUT ++ " seconds") := by
      unfold validationError timeoutError
      rw [if_neg (not_le.mpr hpos), if_pos hgt]
    simp [terminal, hv]
  · intro hpos hle he
    have hce : commandError command = some "Error: Command cannot be empty" := by
      simp [commandError, he]
    have hval := validationError_of_valid command timeout hpos hle
    simp [terminal, hval, hce]
  · intro hpos hle he d hd
    have hce : commandError command =
        some ( "Error: Command contains potentially dangerous operation: " ++ d) := by
      simp [commandError, he, hd]
    have hval := validationError_of_valid command timeout hpos hle
    simp [terminal, hval, hce]

theorem terminal_check_order_witness :
    terminal "" 0 (ExecOutcome.completed "" "" 0) =
      "Error: Timeout must be positive, got " ++ toString (0 : Int) ∧
    terminal "rm -rf /" (-1) (ExecOutcome.completed "" "" 0) =
      "Error: Timeout must be positive, got " ++ toString (-1 : Int) :=
  ⟨(terminal_check_order "" 0 (ExecOutcome.completed "" "" 0)).1 (by decide),
    (terminal_check_order "rm -rf /" (-1) (ExecOutcome.completed "" "" 0)).1 (by decide)⟩

/-- Claim C6: an empty or all-whitespace command with a valid timeout yields
the empty-command error text, and no subprocess is spawned. -/
theorem terminal_empty_command (command : String) (timeout : Int)
    (h1 : 0 < timeout) (h2 : timeout ≤ MAX_TIMEOUT)
    (h3 : command.data.all isPySpace = true) :
    (∀ o : ExecOutcome, terminal command timeout o = "Error: Command cannot be empty") ∧
    spawnsSubprocess command timeout = false := by
  have hs : (pyStrip command).isEmpty = true :=
    (pyStrip_empty_iff command).mpr (by simpa [List.all_eq_true] using h3)
  have he : (command.isEmpty || (pyStrip command).isEmpty) = true := by
    simp [hs]
  have hce : commandError command = some "Error: Command cannot be empty" := by
    simp [commandError, he]
  have hval := validationError_of_valid command timeout h1 h2
  constructor
  · intro o
    simp [terminal, hval, hce]
  · unfold spawnsSubprocess
    rw [hval, hce]
    rfl

theorem terminal_empty_command_witness :
    (∀ o : ExecOutcome, terminal "   " 30 o = "Error: Command cannot be empty") ∧
    spawnsSubprocess "   " 30 = false :=
  terminal_empty_command "   " 30 (by decide) (by decide) (by decide)

/-- Claim C7: whenever the spawned subprocess exceeds the timeout bound, the
result is the timeout error text, which textually contains the
caller-supplied timeout value. -/
theorem terminal_timeout_expiry (command : String) (timeout : Int)
    (h : spawnsSubprocess command timeout = true) :
    terminal command timeout ExecOutcome.timeoutExpired =
      "Error: Command timed out after " ++ toString timeout ++ " seconds." ∧
    strContains
      ( "Error: Command timed out after " ++ toString timeout ++ " seconds.")
      (toString timeout) = true := by
  have hv : validationError command timeout = none := Option.isNone_iff_eq_none.mp h
  constructor
  · simp [terminal, hv]
  · unfold strContains
    rw [containsSub_iff]
    exact ⟨("Error: Command timed out after ").data, (" seconds.").data,
      by simp [String.data_append]⟩

theorem terminal_timeout_expiry_witness :
    spawnsSubprocess "sleep 10" 5 = true ∧
    terminal "sleep 10" 5 ExecOutcome.timeoutExpired =
      "Error: Command timed out after " ++ toString (5 : Int) ++ " seconds." :=
  ⟨by decide, (terminal_timeout_expiry "sleep 10" 5 (by decide)).1⟩

/-- Claim C8: the status line segment is always appended, so the parts list
is never empty, the completed result is always the newline-join (the
no-output sentinel is unreachable), and a completion with empty streams and
exit code 0 yields exactly the status line. -/
theorem terminal_status_line_always (command : String) (timeout : Int)
    (stdout stderr : String) (returncode : Int)
    (h : spawnsSubprocess command timeout = true) :
    output_parts stdout stderr returncode ≠ [] ∧
    terminal command timeout (ExecOutcome.completed stdout stderr returncode) =
      joinWith "\n" (output_parts stdout stderr returncode) ∧
    terminal command timeout (ExecOutcome.completed stdout stderr returncode) ≠
      "Command executed successfully with no output." ∧
    terminal command timeout (ExecOutcome.completed "" "" 0) =
      "Command executed with exit code: 0" := by
  have hv : validationError command timeout = none := Option.isNone_iff_eq_none.mp h
  have hne := output_parts_ne_nil stdout stderr returncode
  have hj : terminal command timeout (ExecOutcome.completed stdout stderr returncode) =
      joinWith "\n" (output_parts stdout stderr returncode) := by
    simp only [terminal, hv]
    unfold buildResult
    rw [if_neg (by simpa [List.isEmpty_iff] using hne)]
  refine ⟨hne, hj, ?_, ?_⟩
  · rw [hj]
    intro hcontra
    obtain ⟨pre, hp⟩ := joinWith_concat "\n" (status_info returncode)
      ((if stdout.isEmpty then [] else [stdout]) ++
        (if stderr.isEmpty then [] else [ "STDERR:\n" ++ stderr]))
    rw [show output_parts stdout stderr returncode =
        ((if stdout.isEmpty then [] else [stdout]) ++
          (if stderr.isEmpty then [] else [ "STDERR:\n" ++ stderr])) ++
          [status_info returncode] from rfl, hp] at hcontra
    have hcs : containsSub ("Command executed with exit code: ").data
        ( "Command executed successfully with no output.").data = true := by
      rw [containsSub_iff]
      refine ⟨pre.data, (toString returncode).data ++
        (if returncode != 0 then " (non-zero exit code indicates potential error)"
          else "").data, ?_⟩
      rw [← hcontra]
      simp [status_info, String.data_append, List.append_assoc]
    exact absurd hcs (by decide)
  · simp only [terminal, hv]
    decide

theorem terminal_status_line_always_witness :
    spawnsSubprocess "true" 30 = true ∧
    (output_parts "" "" 0 ≠ [] ∧
      terminal "true" 30 (ExecOutcome.completed "" "" 0) =
        "Command executed with exit code: 0") :=
  ⟨by decide,
    ⟨(terminal_status_line_always "true" 30 "" "" 0 (by decide)).1,
      (terminal_status_line_always "true" 30 "" "" 0 (by decide)).2.2.2⟩⟩

/-- Claim C9 counterexample: with the default "state" backend type,
create_code_agent passes an empty tools list to the orchestration runtime,
so the terminal tool is not registered on that invocation. -/
theorem create_code_agent_default_omits_terminal :
    create_code_agent_tools default_backend_type = [] ∧
    AgentTool.terminalTool ∉ create_code_agent_tools default_backend_type := by
  constructor
  · rfl
  · decide

/-- Claim C9 (amended): the terminal tool is registered as a callable tool
exactly when create_code_agent is invoked with backend_type "filesystem"
(where it is the sole tool); with the default "state" backend the tools
list is empty. -/
theorem create_code_agent_filesystem_registers_terminal :
    AgentTool.terminalTool ∈ create_code_agent_tools "filesystem" ∧
    create_code_agent_tools "filesystem" = [AgentTool.terminalTool] ∧
    create_code_agent_tools default_backend_type = [] := by
  refine ⟨?_, rfl, rfl⟩
  decide

/-- Claim C10: on every failed path - any of the four validation rejections,
or any of the five caught execution faults - the returned string begins
with the literal prefix "Error". -/
theorem terminal_failures_begin_with_Error (command : String) (timeout : Int)
    (o : ExecOutcome)
    (h : (validationError command timeout).isSome = true ∨ isFault o = true) :
    beginsWith (terminal command timeout o) "Error" = true := by
  cases hv : validationError command timeout with
  | some e =>
    have ht : terminal command timeout o = e := by
      simp [terminal, hv]
    rw [ht]
    exact validationError_beginsWith command timeout e hv
  | none =>
    rcases h with h | h
    · rw [hv] at h
      exact absurd h (by simp)
    · cases o with
      | completed s1 s2 rc => simp [isFault] at h
      | timeoutExpired =>
        simp only [terminal, hv]
        exact beginsWith_append _ _ _ (beginsWith_append _ _ _ (by decide))
      | fileNotFoundError =>
        simp only [terminal, hv]
        decide
      | permissionError =>
        simp only [terminal, hv]
        exact beginsWith_append _ _ _ (beginsWith_append _ _ _ (by decide))
      | osError msg =>
        simp only [terminal, hv]
        exact beginsWith_append _ _ _
          (beginsWith_append _ _ _ (beginsWith_append _ _ _ (by decide)))
      | otherException msg =>
        simp only [terminal, hv]
        exact beginsWith_append _ _ _
          (beginsWith_append _ _ _ (beginsWith_append _ _ _ (by decide)))

theorem terminal_failures_begin_with_Error_witness :
    beginsWith (terminal "ls" 0 (ExecOutcome.completed "" "" 0)) "Error" = true :=
  terminal_failures_begin_with_Error "ls" 0 (ExecOutcome.completed "" "" 0)
    (Or.inl (by decide))

end DeepCodeAgent
